import Mathlib

/-!
# Verification of the Timple timedelta module

A shallow embedding of `timple/timedelta.py` (duration codec, format engine,
locator unit/interval selection, formatter offset logic) over exact rational
arithmetic, together with theorems settling the specification claims.

Modelling conventions:
* Python floats are modelled as `ℚ` (exact arithmetic); `NaN` is modelled as
  the `none` case of `Option ℚ`.
* `numpy.timedelta64` scalars are modelled as `Option ℤ` nanosecond tick
  counts, `none` being `NaT`.
* `datetime.timedelta` is modelled by its exact total signed microsecond
  count (the type's resolution); Python normalizes a timedelta to
  `(days, seconds, microseconds)` with `0 ≤ microseconds < 10^6`, so the
  `microseconds` attribute is the euclidean remainder of the total mod `10^6`.
* Fallible Python code (`raise`) is modelled with `Except String`.
-/

namespace Timple

/-! ## Time-related constants (module level constants in the source) -/

def HOURS_PER_DAY : ℚ := 24
def MIN_PER_HOUR : ℚ := 60
def SEC_PER_MIN : ℚ := 60
def MINUTES_PER_DAY : ℚ := MIN_PER_HOUR * HOURS_PER_DAY
def SEC_PER_HOUR : ℚ := SEC_PER_MIN * MIN_PER_HOUR
def SEC_PER_DAY : ℚ := SEC_PER_HOUR * HOURS_PER_DAY
def MUSECONDS_PER_DAY : ℚ := 1000000 * SEC_PER_DAY

/-! ## Duration codec (`_td64_to_ordinalf`, `timedelta2num`, `num2timedelta`) -/

/-- A `numpy.timedelta64` scalar: an exact signed nanosecond tick count, or
`none` for `NaT`. -/
def Td64 : Type := Option ℤ

/-- `_td64_to_ordinalf` on a scalar: split the tick count into whole seconds
(`astype('timedelta64[s]')` truncates toward zero) plus a nanosecond
remainder, recombine as seconds and divide by `SEC_PER_DAY`; an input whose
int64 payload equals the `NaT` payload yields `NaN` (`none`). -/
def td64_to_ordinalf (d : Option ℤ) : Option ℚ :=
  match d with
  | none => none
  | some ns =>
      let dseconds : ℤ := ns.tdiv 1000000000
      let extra : ℤ := ns - dseconds * 1000000000
      some (((dseconds : ℚ) + (extra : ℚ) / 1000000000) / SEC_PER_DAY)

/-- `timedelta2num` on a scalar `numpy.timedelta64`: after the pandas/array
plumbing (identity for a plain scalar) it is exactly `_td64_to_ordinalf`. -/
def timedelta2num_td64 (t : Option ℤ) : Option ℚ :=
  td64_to_ordinalf t

/-- A `datetime.timedelta`, represented by its exact total signed
microsecond count. -/
structure PyTimedelta where
  us : ℤ
deriving DecidableEq, Repr

/-- `timedelta.total_seconds()` (a float in CPython; exact here). -/
def PyTimedelta.total_seconds (td : PyTimedelta) : ℚ :=
  (td.us : ℚ) / 1000000

/-- The `microseconds` attribute of the normalized Python representation:
`0 ≤ microseconds < 10^6` always, so it is the euclidean remainder. -/
def PyTimedelta.microseconds (td : PyTimedelta) : ℤ :=
  td.us.emod 1000000

/-- Round half to even, as CPython rounds a fractional microsecond count in
the `datetime.timedelta` constructor. -/
def roundHalfEven (q : ℚ) : ℤ :=
  let f : ℤ := ⌊q⌋
  let r : ℚ := q - (f : ℚ)
  if r < 1/2 then f
  else if 1/2 < r then f + 1
  else if 2 ∣ f then f else f + 1

/-- `datetime.timedelta(days=x)` for a float day count `x`: the fractional
parts are accumulated and rounded half-to-even to whole microseconds.  For
`x = NaN` CPython raises `ValueError` (`int()` of `NaN`), because
`datetime.timedelta` has no invalid/`NaT` value. -/
def timedelta_from_days (x : Option ℚ) : Except String PyTimedelta :=
  match x with
  | none => .error "cannot convert float NaN to integer"
  | some q => .ok ⟨roundHalfEven (q * MUSECONDS_PER_DAY)⟩

/-- `num2timedelta` on a scalar float: elementwise
`datetime.timedelta(days=x)`. -/
def num2timedelta (x : Option ℚ) : Except String PyTimedelta :=
  timedelta_from_days x

/-- `timedelta2num` on a scalar `datetime.timedelta`: the object array is
cast to `timedelta64[us]` (exact, microseconds are the type's resolution)
and then run through `_td64_to_ordinalf`. -/
def timedelta2num_py (t : PyTimedelta) : Option ℚ :=
  td64_to_ordinalf (some (t.us * 1000))

theorem timedelta2num_py_eq (t : PyTimedelta) :
    timedelta2num_py t = some ((t.us : ℚ) / MUSECONDS_PER_DAY) := by
  unfold timedelta2num_py td64_to_ordinalf MUSECONDS_PER_DAY SEC_PER_DAY
    SEC_PER_HOUR SEC_PER_MIN MIN_PER_HOUR HOURS_PER_DAY
  simp only [Option.some.injEq]
  push_cast
  field_simp
  ring

/-! ## Locator (`TimedeltaLocator`, `AutoTimedeltaLocator`) -/

/-- `TimedeltaLocator.base_units` (order matters for the scans below). -/
def base_units : List String :=
  ["days", "hours", "minutes", "seconds", "microseconds"]

/-- `TimedeltaLocator.base_factors`: dict lookup, `none` models `KeyError`. -/
def base_factors (b : String) : Option ℚ :=
  if b = "days" then some 1
  else if b = "hours" then some HOURS_PER_DAY
  else if b = "minutes" then some MINUTES_PER_DAY
  else if b = "seconds" then some SEC_PER_DAY
  else if b = "microseconds" then some MUSECONDS_PER_DAY
  else none

/-- The loop body of `AutoTimedeltaLocator._get_base`: the Python loop
variable `base` is assigned each list element in turn (so it keeps the last
element after exhaustion), a `KeyError` on the factor lookup `continue`s,
and the loop `break`s at the first unit with `tdelta * factor >= minticks`.
`cur` is the current value of the loop variable (initially the `'days'`
fallback assigned before the loop). -/
def get_base_loop (minticks tdelta : ℚ) : List String → String → String
  | [], cur => cur
  | b :: rest, _ =>
      match base_factors b with
      | none => get_base_loop minticks tdelta rest b
      | some factor =>
          if minticks ≤ tdelta * factor then b
          else get_base_loop minticks tdelta rest b

/-- `AutoTimedeltaLocator._get_base` (with `self.minticks` as a parameter). -/
def get_base (minticks tdelta : ℚ) : String :=
  get_base_loop minticks tdelta base_units "days"

/-- The predicate of the unit scan: `tdelta * factor >= minticks` (false on
a missing factor, which the source skips via `except KeyError`). -/
def base_qualifies (minticks tdelta : ℚ) (b : String) : Bool :=
  match base_factors b with
  | none => false
  | some factor => decide (minticks ≤ tdelta * factor)

/-- `AutoTimedeltaLocator.intervald`, the default per-unit allowed-interval
table. -/
def intervald (b : String) : List ℚ :=
  if b = "days" then
    [1, 2, 5, 10, 20, 25, 50, 100, 200, 500, 1000, 2000,
     5000, 10000, 20000, 50000, 100000, 200000, 500000, 1000000]
  else if b = "hours" then [1, 2, 3, 4, 6, 8, 12]
  else if b = "minutes" then [1, 2, 3, 5, 10, 15, 20, 30]
  else if b = "seconds" then [1, 2, 3, 5, 10, 15, 20, 30]
  else if b = "microseconds" then
    [1, 2, 5, 10, 20, 50, 100, 200, 500, 1000, 2000,
     5000, 10000, 20000, 50000, 100000, 200000, 500000, 1000000]
  else []

/-- `AutoTimedeltaLocator.maxticks`, the default per-unit max-tick table. -/
def maxticks (b : String) : ℤ :=
  if b = "days" then 11
  else if b = "hours" then 12
  else if b = "minutes" then 11
  else if b = "seconds" then 11
  else if b = "microseconds" then 8
  else 0

/-- The loop of `AutoTimedeltaLocator._get_interval_for_base`: the loop
variable `interval` is assigned each list element in turn, and the loop
`break`s at the first element with `norm_delta // interval <= maxticks`;
after exhaustion the last element stays selected.  `cur` is the current
value of the loop variable (initially the fallback `1`). -/
def interval_loop (p : ℚ → Bool) : List ℚ → ℚ → ℚ
  | [], cur => cur
  | i :: rest, _ => if p i then i else interval_loop p rest i

/-- The `break` condition of the interval scan:
`norm_delta // interval <= self.maxticks[base]` (Python float floor
division). -/
def interval_ok (maxt : ℤ) (norm_delta i : ℚ) : Bool :=
  decide (⌊norm_delta / i⌋ ≤ maxt)

/-- `AutoTimedeltaLocator._get_interval_for_base`. -/
def get_interval_for_base (norm_delta : ℚ) (b : String) : ℚ :=
  interval_loop (interval_ok (maxticks b) norm_delta) (intervald b) 1

/-- The exhaustion behaviour of the Python `for`-with-`break` loop: the
result is the first element satisfying the predicate, the last element if
none does, and the initial loop-variable value only for an empty list. -/
theorem interval_loop_eq (p : ℚ → Bool) (l : List ℚ) (d : ℚ) :
    interval_loop p l d = ((l.find? p).getD (l.getLast?.getD d)) := by
  induction l generalizing d with
  | nil => rfl
  | cons x rest ih =>
      by_cases hx : p x
      · simp [interval_loop, hx, List.find?_cons, Option.getD]
      · cases rest with
        | nil => simp [interval_loop, hx, List.find?_cons, Option.getD]
        | cons y ys =>
            have hne : (y :: ys : List ℚ).getLast? ≠ none := by
              simp [List.getLast?_eq_getLast (y :: ys) (by simp)]
            obtain ⟨z, hz⟩ := Option.ne_none_iff_exists.mp hne
            have h1 : interval_loop p (x :: y :: ys) d
                = interval_loop p (y :: ys) x := by
              simp [interval_loop, hx]
            rw [h1, ih x, List.find?_cons_of_neg _ hx,
              List.getLast?_cons_cons, ← hz]
            simp [Option.getD]

/-- The unit/interval selection of `AutoTimedeltaLocator.get_locator`: the
absolute difference of the view-limit timedeltas is converted to a day
count, a base unit and an interval are chosen, and the step handed to the
tick generator is `interval / factor`.  Returns `(base, interval, step)`.
(`timedelta2num` on a finite timedelta always yields a number, see
`timedelta2num_py_eq`; the chosen base is always a key of `base_factors`,
so the `getD` defaults are never taken.) -/
def get_locator_params (minticks : ℚ) (vmin vmax : PyTimedelta) :
    String × ℚ × ℚ :=
  let t0 : ℤ := vmax.us - vmin.us
  let t1 : ℤ := if vmax.us < vmin.us then -t0 else t0
  let tdelta : ℚ := (timedelta2num_py ⟨t1⟩).getD 0
  let base := get_base minticks tdelta
  let factor := (base_factors base).getD 1
  let norm_delta := tdelta * factor
  let interval := get_interval_for_base norm_delta base
  (base, interval, interval / factor)

/-- Modelled from the spec: the tick generator this module delegates to
(`matplotlib.ticker.MultipleLocator`, host-framework code that is not part
of this repository).  Per spec §4.3/§4.4 it produces the evenly spaced
multiples of `interval/unitFactor` lying in the view range, padded by one
extra tick on each side of the range. -/
def multiple_locator_ticks (step vmin vmax : ℚ) : List ℚ :=
  let kmin : ℤ := ⌈vmin / step⌉
  let kmax : ℤ := ⌊vmax / step⌋
  (List.range (kmax - kmin + 3).toNat).map
    (fun j => ((kmin - 1 + (j : ℤ) : ℤ) : ℚ) * step)

/-- `AutoTimedeltaLocator.__call__`: `viewlim_to_td` reorders the view
floats and converts them to timedeltas (`num2timedelta`), `get_locator`
selects base and interval, and the resulting multiple-of-step locator is
run over the axis view interval.  Returns `(base, interval, ticks)`. -/
def auto_locator_call (minticks viewmin viewmax : ℚ) :
    String × ℚ × List ℚ :=
  let tmin : ℚ := if viewmax < viewmin then viewmax else viewmin
  let tmax : ℚ := if viewmax < viewmin then viewmin else viewmax
  let tdmin : PyTimedelta := ⟨roundHalfEven (tmin * MUSECONDS_PER_DAY)⟩
  let tdmax : PyTimedelta := ⟨roundHalfEven (tmax * MUSECONDS_PER_DAY)⟩
  let p := get_locator_params minticks tdmin tdmax
  (p.1, p.2.1, multiple_locator_ticks p.2.2 tmin tmax)

/-- The unit scan has the same `for`-with-`break` exhaustion behaviour as
the interval scan: first qualifying element, else the last element, else
(empty list only) the initial loop-variable value. -/
theorem get_base_loop_eq (minticks tdelta : ℚ) (l : List String)
    (cur : String) :
    get_base_loop minticks tdelta l cur
      = (l.find? (base_qualifies minticks tdelta)).getD
          (l.getLast?.getD cur) := by
  induction l generalizing cur with
  | nil => rfl
  | cons b rest ih =>
      have hstep : get_base_loop minticks tdelta (b :: rest) cur
          = if base_qualifies minticks tdelta b = true then b
            else get_base_loop minticks tdelta rest b := by
        cases hf : base_factors b <;>
          simp [get_base_loop, base_qualifies, hf]
      by_cases hb : base_qualifies minticks tdelta b = true
      · rw [hstep, if_pos hb, List.find?_cons_of_pos _ hb]
        rfl
      · rw [hstep, if_neg hb, ih,
          List.find?_cons_of_neg _ (by simpa using hb)]
        cases rest with
        | nil => rfl
        | cons y ys =>
            have hne : (y :: ys : List String).getLast? ≠ none := by
              simp [List.getLast?_eq_getLast (y :: ys) (by simp)]
            obtain ⟨z, hz⟩ := Option.ne_none_iff_exists.mp hne
            rw [List.getLast?_cons_cons, ← hz]
            simp [Option.getD]

/-- C2 (amended): the unit scan picks the first qualifying unit in the
fixed order, and on exhaustion the loop variable keeps the *last* scanned
unit, `'microseconds'` — not the `'days'` fallback, which is only reachable
for an empty unit list. -/
theorem get_base_first_qualifying_or_microseconds (minticks tdelta : ℚ) :
    get_base minticks tdelta
      = (base_units.find? (base_qualifies minticks tdelta)).getD
          "microseconds" := by
  rw [get_base, get_base_loop_eq]
  have h : base_units.getLast?.getD "days" = "microseconds" := rfl
  rw [h]

/-- C2 (counterexample): a zero-width (finite) view interval at day 100
qualifies no base unit, and the selected unit is `'microseconds'`, not the
claimed `'days'` fallback. -/
theorem get_base_fallback_not_days :
    (∀ b ∈ base_units, base_qualifies 5 0 b = false) ∧
      (get_locator_params 5 ⟨8640000000000⟩ ⟨8640000000000⟩).1
        = "microseconds" ∧
      (get_locator_params 5 ⟨8640000000000⟩ ⟨8640000000000⟩).1 ≠ "days" := by
  refine ⟨?_, ?_, ?_⟩ <;> exact of_decide_eq_true (by with_unfolding_all rfl)

/-- C3: within the chosen unit's interval table the scan picks the first
interval with `⌊norm_delta / interval⌋ ≤ maxticks`, and on loop exhaustion
the last table entry stays selected. -/
theorem get_interval_first_fitting_or_last (norm_delta : ℚ) (b : String)
    (_hb : b ∈ base_units) :
    get_interval_for_base norm_delta b
      = ((intervald b).find? (interval_ok (maxticks b) norm_delta)).getD
          ((intervald b).getLast?.getD 1) :=
  interval_loop_eq _ _ _

theorem get_interval_first_fitting_or_last_witness :
    "days" ∈ base_units ∧
      get_interval_for_base 141 "days"
        = ((intervald "days").find? (interval_ok (maxticks "days") 141)).getD
            ((intervald "days").getLast?.getD 1) :=
  ⟨by decide, get_interval_first_fitting_or_last 141 "days" (by decide)⟩

/-- C4 (amended): for the view interval `[100, 241]` (span 141 days) the
default auto locator picks unit `'days'`, interval `20`, and produces the
ticks `80, 100, ..., 260` — which are 10 ticks, not 9. -/
theorem auto_locator_call_141_days :
    auto_locator_call 5 100 241
      = ("days", 20,
          [80, 100, 120, 140, 160, 180, 200, 220, 240, 260]) :=
  of_decide_eq_true (by with_unfolding_all rfl)

/-- C4 (counterexample): the tick set `{80, 100, ..., 260}` produced for
the spec's reference input has 10 elements, not the 9 the claim states. -/
theorem auto_locator_call_141_days_count :
    (auto_locator_call 5 100 241).2.2.length = 10 ∧
      ¬ (auto_locator_call 5 100 241).2.2.length = 9 :=
  of_decide_eq_true (by with_unfolding_all rfl)

/-! ## Format engine (`_TimedeltaFormatTemplate`, `strftimedelta`,
`strftdnum`) -/

/-- Identifier-start characters of `string.Template`'s default placeholder
pattern (ASCII mode): a letter or underscore. -/
def isIdentStart (c : Char) : Bool := c.isAlpha || c = '_'

/-- Identifier-continuation characters of the placeholder pattern. -/
def isIdentChar (c : Char) : Bool := c.isAlphanum || c = '_'

/-- Scanner state of the template engine: plain text, just after a `%`
delimiter, or inside an identifier (accumulated in reverse). -/
inductive TState where
  | norm : TState
  | pct : TState
  | ident : List Char → TState

/-- The scan of `string.Template.substitute` with delimiter `%`: `%%` is an
escaped percent, `%` followed by the longest identifier run is a
placeholder — an unknown key raises `KeyError` —, and a `%` followed by
anything else is an invalid placeholder (`ValueError`).  Braced
placeholders are not used by any format string in this module and are not
modelled. -/
def substGo (lk : String → Option String) : TState → List Char → Except String String
  | .norm, [] => .ok ""
  | .norm, '%' :: rest => substGo lk .pct rest
  | .norm, c :: rest => (substGo lk .norm rest).map (fun r => c.toString ++ r)
  | .pct, [] => .error "ValueError: Invalid placeholder"
  | .pct, '%' :: rest => (substGo lk .norm rest).map (fun r => "%" ++ r)
  | .pct, c :: rest =>
      if isIdentStart c then substGo lk (.ident [c]) rest
      else .error "ValueError: Invalid placeholder"
  | .ident acc, [] =>
      (match lk (String.mk acc.reverse) with
       | some v => .ok v
       | none => .error "KeyError")
  | .ident acc, c :: rest =>
      if isIdentChar c then substGo lk (.ident (c :: acc)) rest
      else
        match lk (String.mk acc.reverse) with
        | none => .error "KeyError"
        | some v =>
            if c = '%' then (substGo lk .pct rest).map (fun r => v ++ r)
            else (substGo lk .norm rest).map
              (fun r => v ++ c.toString ++ r)

/-- `_TimedeltaFormatTemplate(fmt).substitute(**values)`. -/
def substitute (lk : String → Option String) (fmt : String) :
    Except String String :=
  substGo lk .norm fmt.toList

/-- `'{:0wd}'.format(n)`: decimal digits left-padded with zeros to width
`w` (every use in `strftimedelta` is on a nonnegative value). -/
def zfill (w : Nat) (n : ℤ) : String :=
  let s := toString n
  if w ≤ s.length then s
  else String.mk (List.replicate (w - s.length) '0') ++ s

/-- `strftimedelta(td, fmt_str)`: all `divmod`-derived sub-values come from
the magnitude of `total_seconds()`, but `us = td.microseconds` is taken
from Python's *normalized* representation (for a negative duration with a
fractional-second part this is `10^6` minus the magnitude's microsecond
remainder, not the remainder itself); the rendered string is prefixed with
`-` when the duration is negative.  A `KeyError` from the template is
re-raised as `ValueError` (the source message quotes the format string;
the quotes are omitted here). -/
def strftimedelta (td : PyTimedelta) (fmt_str : String) :
    Except String String :=
  let s_t0 : ℚ := td.total_seconds
  let sign : String := if s_t0 < 0 then "-" else ""
  let s_t : ℚ := |s_t0|
  let d : ℤ := ⌊s_t / SEC_PER_DAY⌋
  let s1 : ℚ := s_t - SEC_PER_DAY * (d : ℚ)
  let m_t : ℤ := ⌊s1 / SEC_PER_MIN⌋
  let s2 : ℚ := s1 - SEC_PER_MIN * (m_t : ℚ)
  let h : ℤ := ⌊(m_t : ℚ) / MIN_PER_HOUR⌋
  let m : ℤ := m_t - 60 * h
  let h_t : ℤ := ⌊s_t / SEC_PER_HOUR⌋
  let us0 : ℤ := td.microseconds
  let ms : ℤ := ⌊(us0 : ℚ) / 1000⌋
  let usr : ℤ := us0 - 1000 * ms
  let values : String → Option String := fun k =>
    if k = "d" then some (toString d)
    else if k = "H" then some (toString h_t)
    else if k = "M" then some (toString m_t)
    else if k = "S" then some (toString ⌊s_t⌋)
    else if k = "h" then some (zfill 2 h)
    else if k = "m" then some (zfill 2 m)
    else if k = "s" then some (zfill 2 ⌊s2⌋)
    else if k = "ms" then some (zfill 3 ms)
    else if k = "us" then some (zfill 3 usr)
    else if k = "day" then some (if d = 1 then "day" else "days")
    else none
  match substitute values fmt_str with
  | .ok result => .ok (sign ++ result)
  | .error e =>
      if e = "KeyError" then
        .error ("Invalid format string " ++ fmt_str ++ " for timedelta")
      else .error e

/-- `strftdnum(td_num, fmt_str)`: `num2timedelta` then `strftimedelta`. -/
def strftdnum (td_num : ℚ) (fmt_str : String) : Except String String := do
  let td ← num2timedelta (some td_num)
  strftimedelta td fmt_str

/-- The embedding reproduces the repository's own `test_strftimedelta`
test vector. -/
theorem strftimedelta_matches_repo_tests :
    strftimedelta ⟨86400000000⟩ "%d %day, %h:%m" = .ok "1 day, 00:00" ∧
      strftimedelta ⟨194400000000⟩ "%d %day, %h:%m" = .ok "2 days, 06:00" ∧
      strftimedelta ⟨362000000⟩ "%h:%m:%s.%ms" = .ok "00:06:02.000" ∧
      strftimedelta ⟨1250⟩ "%s.%ms%us" = .ok "00.001250" ∧
      strftimedelta ⟨-21600000000⟩ "%h:%m" = .ok "-06:00" ∧
      strftimedelta ⟨-129600000000⟩ "%d %day, %h:%m" = .ok "-1 day, 12:00" ∧
      strftimedelta ⟨172800000000⟩ "%H hours" = .ok "48 hours" ∧
      strftimedelta ⟨21600000000⟩ "%M min" = .ok "360 min" ∧
      strftimedelta ⟨362130000⟩ "%S.%ms" = .ok "362.130" := by
  refine ⟨?_, ?_, ?_, ?_, ?_, ?_, ?_, ?_, ?_⟩ <;> with_unfolding_all rfl

/-- C7: `strftimedelta` renders the `%ms`/`%us` fields of a negative
duration from the normalized `td.microseconds` (the complement of the
magnitude's remainder), not from the magnitude: `-1250` microseconds
renders as `-00.998750`, while the magnitude rendering (as for `+1250`
microseconds) would be `00.001250`. -/
theorem strftimedelta_negative_subsecond :
    strftimedelta ⟨-1250⟩ "%s.%ms%us" = .ok "-00.998750" ∧
      strftimedelta ⟨1250⟩ "%s.%ms%us" = .ok "00.001250" ∧
      (⟨-1250⟩ : PyTimedelta).microseconds = 998750 := by
  refine ⟨?_, ?_, ?_⟩ <;> with_unfolding_all rfl

/-- `ConciseTimedeltaFormatter.__call__`: a single tick is formatted with
the hard-coded `defaultfmt = "%d %days"` through a fresh
`TimedeltaFormatter`, i.e. it computes `strftdnum x "%d %days"`. -/
def concise_formatter_call (x : ℚ) : Except String String :=
  strftdnum x "%d %days"

/-- C9: calling a `ConciseTimedeltaFormatter` directly on any single tick
raises `ValueError`, because the template greedily matches `%days` in the
default format string as the single token `days`, which is not in
`strftimedelta`'s vocabulary (`%day` is). -/
theorem concise_formatter_call_raises (x : ℚ) :
    concise_formatter_call x
      = .error "Invalid format string %d %days for timedelta" := by
  with_unfolding_all rfl

/-! ## Formatter layer (`TimedeltaFormatter`, `ConciseTimedeltaFormatter`) -/

/-- Python `min(values)` on a non-empty list (the empty case raises and is
handled at the call sites). -/
def listMin : List ℚ → ℚ
  | [] => 0
  | v :: vs => vs.foldl min v

/-- Python `round(ref, 13)`: round to 13 decimal digits, ties to even. -/
def round13 (q : ℚ) : ℚ :=
  (roundHalfEven (q * 10000000000000) : ℚ) / 10000000000000

/-- `TimedeltaFormatter.__init__`: the only constructor validation is that
`offset_fmt` requires `offset_on`; the `offset_on` *value* is not checked.
Returns the stored configuration `(fmt, offset_on, offset_fmt)`. -/
def timedelta_formatter_init (fmt : String)
    (offset_on offset_fmt : Option String) :
    Except String (String × Option String × Option String) :=
  if offset_on = none ∧ offset_fmt ≠ none then
    .error "offset_fmt requires offset_on to be specified"
  else .ok (fmt, offset_on, offset_fmt)

/-- `TimedeltaFormatter._offset_values`: the reference value is
`min(values)`, raised to `min(axis.get_data_interval())` when an axis is
attached, rounded to 13 decimal digits, then floored on the level given by
`offset_on`; the offset is subtracted from every value.  An `offset_on`
outside the four levels raises `ValueError`; `min` of an empty value list
raises first. -/
def offset_values (offset_on : String) (axis : Option (ℚ × ℚ))
    (values : List ℚ) : Except String (List ℚ × ℚ) :=
  match values with
  | [] => .error "min() arg is an empty sequence"
  | _ :: _ =>
      let ref0 : ℚ := listMin values
      let ref1 : ℚ :=
        match axis with
        | none => ref0
        | some (d1, d2) => max (min d1 d2) ref0
      let ref : ℚ := round13 ref1
      let offs : Except String ℚ :=
        if offset_on = "days" then .ok (⌊ref⌋ : ℚ)
        else if offset_on = "hours" then
          .ok ((⌊ref * HOURS_PER_DAY⌋ : ℚ) / HOURS_PER_DAY)
        else if offset_on = "minutes" then
          .ok ((⌊ref * MINUTES_PER_DAY⌋ : ℚ) / MINUTES_PER_DAY)
        else if offset_on = "seconds" then
          .ok ((⌊ref * SEC_PER_DAY⌋ : ℚ) / SEC_PER_DAY)
        else .error "Invalid value passed for offset_on"
      offs.map (fun offset => (values.map (fun val => val - offset), offset))

/-- The elementwise formatting `[self._format_tick(val) for val in values]`
of a Python list comprehension: stops at the first raised error. -/
def mapExcept {α β : Type} (f : α → Except String β) :
    List α → Except String (List β)
  | [] => .ok []
  | x :: xs => do
      let y ← f x
      let ys ← mapExcept f xs
      pure (y :: ys)

/-- `TimedeltaFormatter.format_ticks` for a string format (`usetex` off,
its `rcParams` default): apply the offset when `offset_on` is set, format
every (offset) value with `strftdnum`, then render the offset itself when
`offset_fmt` is set.  Returns `(labels, offset_string)` where the offset
string is `''` when `offset_fmt` is `None` (constructor validation already
excludes `offset_fmt` without `offset_on`). -/
def format_ticks (fmt : String) (offset_on offset_fmt : Option String)
    (axis : Option (ℚ × ℚ)) (values : List ℚ) :
    Except String (List String × String) :=
  match offset_on with
  | none => do
      let result ← mapExcept (fun val => strftdnum val fmt) values
      pure (result, "")
  | some u => do
      let vo ← offset_values u axis values
      let result ← mapExcept (fun val => strftdnum val fmt) vo.1
      match offset_fmt with
      | none => pure (result, "")
      | some ofmt => do
          let offset_str ← strftdnum vo.2 ofmt
          pure (result, offset_str)

/-- The granularity factor the spec associates with an offset unit
(units per day). -/
def spec_units_per_day (u : String) : ℚ :=
  if u = "days" then 1
  else if u = "hours" then 24
  else if u = "minutes" then 1440
  else 86400

/-- The offset computation as §4.4 of the spec words it: reference value =
`max(visibleDataMinimum, min(coords))`, rounded to 13 decimal digits, then
floored to a multiple of the chosen unit's granularity. -/
def spec_offset (u : String) (dataMin : ℚ) (coords : List ℚ) : ℚ :=
  let ref : ℚ := round13 (max dataMin (listMin coords))
  let f : ℚ := spec_units_per_day u
  (⌊ref * f⌋ : ℚ) / f

theorem mapExcept_map {α β γ : Type} (g : α → β)
    (f : β → Except String γ) (l : List α) :
    mapExcept f (l.map g) = mapExcept (fun a => f (g a)) l := by
  induction l with
  | nil => rfl
  | cons x xs ih => simp [List.map_cons, mapExcept, ih]

/-- C6: with an axis attached and a non-empty coordinate list, a
`format_ticks` call with `offset_on` set computes the offset exactly as
the spec describes — `max(data minimum, min(coords))`, rounded to 13
digits, floored to the unit granularity — and subtracts it from every
coordinate before the individual ticks (and then the offset itself) are
formatted. -/
theorem format_ticks_offset_on_spec (fmt : String) (u : String)
    (ofmt : Option String) (d1 d2 : ℚ) (vs : List ℚ)
    (hu : u ∈ ["days", "hours", "minutes", "seconds"]) (hvs : vs ≠ []) :
    format_ticks fmt (some u) ofmt (some (d1, d2)) vs
      = (do
          let result ← mapExcept
            (fun val => strftdnum (val - spec_offset u (min d1 d2) vs) fmt) vs
          match ofmt with
          | none => pure (result, "")
          | some o => do
              let offset_str ← strftdnum (spec_offset u (min d1 d2) vs) o
              pure (result, offset_str)) := by
  obtain ⟨v, rest, rfl⟩ := List.exists_cons_of_ne_nil hvs
  have hof : offset_values u (some (d1, d2)) (v :: rest)
      = .ok ((v :: rest).map
              (fun val => val - spec_offset u (min d1 d2) (v :: rest)),
            spec_offset u (min d1 d2) (v :: rest)) := by
    fin_cases hu <;>
      simp [offset_values, spec_offset, spec_units_per_day,
        HOURS_PER_DAY, MINUTES_PER_DAY, SEC_PER_DAY, SEC_PER_HOUR,
        SEC_PER_MIN, MIN_PER_HOUR] <;> norm_num [Except.map]
  simp only [format_ticks, hof]
  rw [show (Except.ok ((v :: rest).map
        (fun val => val - spec_offset u (min d1 d2) (v :: rest)),
        spec_offset u (min d1 d2) (v :: rest)) : Except String (List ℚ × ℚ))
      = pure ((v :: rest).map
        (fun val => val - spec_offset u (min d1 d2) (v :: rest)),
        spec_offset u (min d1 d2) (v :: rest)) from rfl, pure_bind]
  rw [mapExcept_map]

theorem format_ticks_offset_on_spec_witness :
    "hours" ∈ ["days", "hours", "minutes", "seconds"] ∧
      ([(203 : ℚ)/2, 103, 207/2] : List ℚ) ≠ [] ∧
      format_ticks "%H:%m" "hours" (some "%d %day, %h:00")
          (some ((100 : ℚ), 110)) [(203 : ℚ)/2, 103, 207/2]
        = (do
            let result ← mapExcept
              (fun val => strftdnum
                (val - spec_offset "hours" (min (100 : ℚ) 110)
                  [(203 : ℚ)/2, 103, 207/2]) "%H:%m")
              ([(203 : ℚ)/2, 103, 207/2] : List ℚ)
            match (some "%d %day, %h:00" : Option String) with
            | none => pure (result, "")
            | some o => do
                let offset_str ← strftdnum
                  (spec_offset "hours" (min (100 : ℚ) 110)
                    [(203 : ℚ)/2, 103, 207/2]) o
                pure (result, offset_str)) :=
  ⟨by decide, by simp,
    format_ticks_offset_on_spec "%H:%m" "hours" (some "%d %day, %h:00")
      100 110 [(203 : ℚ)/2, 103, 207/2] (by decide) (by simp)⟩

/-- C10: constructing a `TimedeltaFormatter` succeeds for *any*
`offset_on` string — the constructor only checks the
`offset_fmt`-requires-`offset_on` rule — and the `ValueError` for an
invalid `offset_on` value is raised only once `format_ticks` runs on a
non-empty coordinate list. -/
theorem formatter_init_unvalidated_offset_on (fmt u : String)
    (axis : Option (ℚ × ℚ)) (vs : List ℚ)
    (hu : u ∉ ["days", "hours", "minutes", "seconds"]) (hvs : vs ≠ []) :
    timedelta_formatter_init fmt (some u) none = .ok (fmt, some u, none) ∧
      format_ticks fmt (some u) none axis vs
        = .error "Invalid value passed for offset_on" := by
  constructor
  · simp [timedelta_formatter_init]
  · obtain ⟨v, rest, rfl⟩ := List.exists_cons_of_ne_nil hvs
    have hov : offset_values u axis (v :: rest)
        = .error "Invalid value passed for offset_on" := by
      simp only [List.mem_cons, not_or] at hu
      obtain ⟨h1, h2, h3, h4, -⟩ := hu
      simp [offset_values, h1, h2, h3, h4, Except.map]
    simp only [format_ticks, hov]
    rfl

theorem formatter_init_unvalidated_offset_on_witness :
    "lightyears" ∉ ["days", "hours", "minutes", "seconds"] ∧
      ([(0 : ℚ)] : List ℚ) ≠ [] ∧
      (timedelta_formatter_init "%d" (some "lightyears") none
          = .ok ("%d", some "lightyears", none) ∧
        format_ticks "%d" (some "lightyears") none none [(0 : ℚ)]
          = .error "Invalid value passed for offset_on") :=
  ⟨by decide, by simp,
    formatter_init_unvalidated_offset_on "%d" "lightyears" none [(0 : ℚ)]
      (by decide) (by simp)⟩

/-! ## Concise formatter construction (`ConciseTimedeltaFormatter`) -/

/-- The documented 5-entry default tick-format table. -/
def concise_default_formats : List String :=
  ["%d %day", "%H:00", "%H:%m", "%M:%s.0", "%S.%ms%us"]

/-- The documented 5-entry default `(offset format, offset position)`
table. -/
def concise_default_offset_formats : List (Option String × Option String) :=
  [(none, none),
   (some "%d %day", some "days"),
   (some "%d %day", some "days"),
   (some "%d %day, %h:00", some "hours"),
   (some "%d %day, %h:%m", some "minutes")]

/-- `ConciseTimedeltaFormatter.__init__` table validation: `if formats:`
is Python truthiness, so `None` *or an empty list* falls back to the
default table; a supplied non-empty `formats` is rejected unless its
length is 6 (although the error message and the docstring demand 5), and
a supplied non-empty `offset_formats` is rejected unless its length is 5.
Returns the accepted `(formats, offset_formats)` pair. -/
def concise_formatter_init (formats : Option (List String))
    (offset_formats : Option (List (Option String × Option String))) :
    Except String (List String × List (Option String × Option String)) := do
  let fs ←
    match formats with
    | some l =>
        if l.isEmpty then pure concise_default_formats
        else if l.length ≠ 6 then
          (.error
            "formats argument must be a list of 5 format strings (or None)"
            : Except String (List String))
        else pure l
    | none => pure concise_default_formats
  let ofs ←
    match offset_formats with
    | some l =>
        if l.isEmpty then pure concise_default_offset_formats
        else if l.length ≠ 5 then
          (.error
            "offset_formats argument must be a list of 5 format strings (or None)"
            : Except String (List (Option String × Option String)))
        else pure l
    | none => pure concise_default_offset_formats
  pure (fs, ofs)

/-- C8: the `formats` length check is against 6, contradicting the
documented (and error-message) requirement of exactly 5: the documented
5-entry default itself is rejected when passed explicitly, a 6-entry list
is accepted, and `offset_formats` is correctly checked against 5. -/
theorem concise_init_formats_length_check :
    concise_formatter_init (some concise_default_formats) none
        = .error
            "formats argument must be a list of 5 format strings (or None)" ∧
      concise_formatter_init
          (some ["%d %day", "%H:00", "%H:%m", "%M:%s.0", "%S.%ms%us", "extra"])
          none
        = .ok (["%d %day", "%H:00", "%H:%m", "%M:%s.0", "%S.%ms%us", "extra"],
            concise_default_offset_formats) ∧
      concise_formatter_init none (some concise_default_offset_formats)
        = .ok (concise_default_formats, concise_default_offset_formats) := by
  refine ⟨?_, ?_, ?_⟩ <;> rfl

/-! ## NaT stability (claim C5) -/

/-- C5 (counterexample): `num2timedelta` applied to `NaN` does not return
a missing-duration sentinel — it raises `ValueError`, because
`datetime.timedelta` has no invalid value and its constructor rejects a
`NaN` day count. -/
theorem num2timedelta_nan_raises :
    num2timedelta none = .error "cannot convert float NaN to integer" := rfl

/-- C5 (amended): `timedelta2num` of `NaT` is `NaN`, and `num2timedelta`
of `NaN` raises `ValueError` (there is no native missing sentinel to
return), rather than producing a finite duration. -/
theorem nat_to_nan_and_nan_raises :
    timedelta2num_td64 none = none ∧
      num2timedelta none = .error "cannot convert float NaN to integer" :=
  ⟨rfl, rfl⟩

end Timple
